import Mathlib

/-!
Shallow embedding of `src/von_koch.py` (class `VonKochApp`), a tkinter
application drawing a Von Koch snowflake with interactive zoom, pan and
recursion-depth controls.

Modelling conventions:
* Python floats are modelled by real numbers `ℝ`; `math.sqrt`, `math.cos`,
  `math.sin`, `math.pi` become `Real.sqrt`, `Real.cos`, `Real.sin`, `Real.pi`,
  and `math.atan2 y x` becomes the argument of the complex number `x + i*y`
  (both live in `(-π, π]` and send the zero vector to `0`).
* The mutable attributes of the single `VonKochApp` instance that the
  interaction handlers touch (`zoom`, `pan_x`, `pan_y`, `niveau`, `dragging`,
  `last_x`, `last_y`) are gathered in the record `VonKochState`; each handler
  method becomes a function `VonKochState → args → VonKochState`.
* `calculer_points_koch` recurses on `niveau`; its Lean counterpart takes the
  depth as a natural number (the recursion is structural there).  To reason
  about the behaviour of the Python code on *negative* depths, a second,
  fuel-indexed version `calculer_points_koch_fuel` takes the depth as an
  integer, models the call stack by an explicit fuel and returns `none` when
  the fuel is exhausted, i.e. when the recursion has not terminated within
  the given number of nested calls.
* `dessiner_flocon` also draws on the canvas and updates labels; only its
  geometric content (the triangle vertices and the outline point list handed
  to `create_polygon`) is modelled.
-/

namespace VonKoch

/-- Python `math.atan2 y x`, modelled as the principal argument of the
complex number `x + i*y` (range `(-π, π]`, with `atan2 0 0 = 0`,
matching CPython). -/
noncomputable def atan2 (y x : ℝ) : ℝ :=
  Complex.arg ⟨x, y⟩

/-- Class constant `TAILLE_FLOCON = 600` (base size of the snowflake in
pixels). -/
def TAILLE_FLOCON : ℝ := 600

/-- Class constant `NIVEAU_RECURSION = 4` (initial recursion depth). -/
def NIVEAU_RECURSION : ℤ := 4

/-- `calculer_points_koch(x1, y1, x2, y2, niveau)` from `src/von_koch.py`
(lines 115-157), with the depth taken as a natural number.

Base case `niveau == 0`: return `[(x1, y1), (x2, y2)]`.
Recursive case: compute the direction vector, its length and angle, the
points `p1` (one third along), `p3` (two thirds along) and the spike `p2`
(rotation by 60° of the direction, scaled to a third of the length), recurse
on the four sub-segments and concatenate the results, dropping the last
point of each of the first three (Python slice `[:-1]` is `List.dropLast`). -/
noncomputable def calculer_points_koch (x1 y1 x2 y2 : ℝ) : ℕ → List (ℝ × ℝ)
  | 0 => [(x1, y1), (x2, y2)]
  | niveau + 1 =>
    let dx := x2 - x1
    let dy := y2 - y1
    let distance := Real.sqrt (dx * dx + dy * dy)
    let angle := atan2 dy dx
    let p1_x := x1 + dx / 3
    let p1_y := y1 + dy / 3
    let p3_x := x1 + 2 * dx / 3
    let p3_y := y1 + 2 * dy / 3
    let p2_x := p1_x + distance / 3 * Real.cos (angle + Real.pi / 3)
    let p2_y := p1_y + distance / 3 * Real.sin (angle + Real.pi / 3)
    let segment1 := calculer_points_koch x1 y1 p1_x p1_y niveau
    let segment2 := calculer_points_koch p1_x p1_y p2_x p2_y niveau
    let segment3 := calculer_points_koch p2_x p2_y p3_x p3_y niveau
    let segment4 := calculer_points_koch p3_x p3_y x2 y2 niveau
    segment1.dropLast ++ segment2.dropLast ++ segment3.dropLast ++ segment4

/-- `calculer_points_koch` with the depth as a (possibly negative) integer,
exactly as the Python function receives it, and an explicit fuel bounding the
depth of nested calls: `none` means the computation did not reach its result
within `fuel` nested calls.  The body mirrors the source: the only base case
is the test `niveau == 0`, every other value of `niveau` recurses on the four
sub-segments with `niveau - 1`. -/
noncomputable def calculer_points_koch_fuel :
    ℕ → ℝ → ℝ → ℝ → ℝ → ℤ → Option (List (ℝ × ℝ))
  | 0, _, _, _, _, _ => none
  | fuel + 1, x1, y1, x2, y2, niveau =>
    if niveau = 0 then
      some [(x1, y1), (x2, y2)]
    else
      let dx := x2 - x1
      let dy := y2 - y1
      let distance := Real.sqrt (dx * dx + dy * dy)
      let angle := atan2 dy dx
      let p1_x := x1 + dx / 3
      let p1_y := y1 + dy / 3
      let p3_x := x1 + 2 * dx / 3
      let p3_y := y1 + 2 * dy / 3
      let p2_x := p1_x + distance / 3 * Real.cos (angle + Real.pi / 3)
      let p2_y := p1_y + distance / 3 * Real.sin (angle + Real.pi / 3)
      (calculer_points_koch_fuel fuel x1 y1 p1_x p1_y (niveau - 1)).bind fun segment1 =>
      (calculer_points_koch_fuel fuel p1_x p1_y p2_x p2_y (niveau - 1)).bind fun segment2 =>
      (calculer_points_koch_fuel fuel p2_x p2_y p3_x p3_y (niveau - 1)).bind fun segment3 =>
      (calculer_points_koch_fuel fuel p3_x p3_y x2 y2 (niveau - 1)).bind fun segment4 =>
      some (segment1.dropLast ++ segment2.dropLast ++ segment3.dropLast ++ segment4)

/-- The call `calculer_points_koch(x1, y1, x2, y2, niveau)` exhausts every
fuel bound: no finite number of nested calls suffices, i.e. the recursion is
unbounded. -/
def koch_boucle_infinie (x1 y1 x2 y2 : ℝ) (niveau : ℤ) : Prop :=
  ∀ fuel : ℕ, calculer_points_koch_fuel fuel x1 y1 x2 y2 niveau = none

/-- The mutable view state of the `VonKochApp` instance: the attributes set
in `__init__` (lines 47-54) and mutated by the interaction handlers. -/
structure VonKochState where
  zoom : ℝ
  pan_x : ℝ
  pan_y : ℝ
  niveau : ℤ
  dragging : Bool
  last_x : ℝ
  last_y : ℝ

/-- The state set up by `__init__`: `zoom = 1.0`, `pan_x = pan_y = 0`,
`dragging = False`, `last_x = last_y = 0`, `niveau = NIVEAU_RECURSION`. -/
def etat_initial : VonKochState :=
  { zoom := 1.0, pan_x := 0, pan_y := 0, niveau := NIVEAU_RECURSION,
    dragging := false, last_x := 0, last_y := 0 }

/-- `commencer_deplacement(event)` (lines 202-206): start a drag at the
event position. -/
def commencer_deplacement (s : VonKochState) (event_x event_y : ℝ) : VonKochState :=
  { s with dragging := true, last_x := event_x, last_y := event_y }

/-- `deplacer(event)` (lines 208-224): while dragging, add the motion delta
since the last event to the pan offset and remember the event position. -/
def deplacer (s : VonKochState) (event_x event_y : ℝ) : VonKochState :=
  if s.dragging then
    { s with
      pan_x := s.pan_x + (event_x - s.last_x),
      pan_y := s.pan_y + (event_y - s.last_y),
      last_x := event_x,
      last_y := event_y }
  else s

/-- `arreter_deplacement(event)` (lines 226-228): stop dragging. -/
def arreter_deplacement (s : VonKochState) : VonKochState :=
  { s with dragging := false }

/-- `zoomer_windows(event)` (lines 230-235): multiply the zoom by
`1 + delta/1200` and clamp it to `[0.1, 50.0]`. -/
noncomputable def zoomer_windows (s : VonKochState) (delta : ℝ) : VonKochState :=
  let factor := 1.0 + delta / 1200.0
  { s with zoom := max 0.1 (min 50.0 (s.zoom * factor)) }

/-- `zoomer_macos(event)` (lines 237-242): multiply the zoom by
`1 + delta/120` and clamp it to `[0.1, 50.0]`. -/
noncomputable def zoomer_macos (s : VonKochState) (delta : ℝ) : VonKochState :=
  let factor := 1.0 + delta / 120.0
  { s with zoom := max 0.1 (min 50.0 (s.zoom * factor)) }

/-- `zoomer_in_linux(event)` (lines 244-248): multiply the zoom by `1.1` and
clamp it from above by `50.0` (no lower clamp in the source). -/
noncomputable def zoomer_in_linux (s : VonKochState) : VonKochState :=
  { s with zoom := min 50.0 (s.zoom * 1.1) }

/-- `zoomer_out_linux(event)` (lines 250-254): divide the zoom by `1.1` and
clamp it from below by `0.1` (no upper clamp in the source). -/
noncomputable def zoomer_out_linux (s : VonKochState) : VonKochState :=
  { s with zoom := max 0.1 (s.zoom / 1.1) }

/-- `zoomer_clavier(zoom_in)` (lines 256-269): multiply or divide the zoom
by `1.2` and clamp it to `[0.1, 50.0]`. -/
noncomputable def zoomer_clavier (s : VonKochState) (zoom_in : Bool) : VonKochState :=
  let z := if zoom_in then s.zoom * 1.2 else s.zoom / 1.2
  { s with zoom := max 0.1 (min 50.0 z) }

/-- `changer_niveau(delta)` (lines 271-281): add `delta` to the recursion
level and clamp it to `[0, 7]`. -/
def changer_niveau (s : VonKochState) (delta : ℤ) : VonKochState :=
  { s with niveau := max 0 (min 7 (s.niveau + delta)) }

/-- One zoom interaction, as dispatched by the event bindings of `__init__`:
a Windows or macOS wheel event with its `delta`, a Linux Button-4/Button-5
event, or a keyboard/button zoom with its direction. -/
inductive ZoomOp where
  | windows (delta : ℝ)
  | macos (delta : ℝ)
  | inLinux
  | outLinux
  | clavier (zoom_in : Bool)

/-- Apply one zoom interaction to the state via the corresponding handler. -/
noncomputable def appliquer_zoom (s : VonKochState) : ZoomOp → VonKochState
  | .windows delta => zoomer_windows s delta
  | .macos delta => zoomer_macos s delta
  | .inLinux => zoomer_in_linux s
  | .outLinux => zoomer_out_linux s
  | .clavier b => zoomer_clavier s b

/-- Apply a sequence of zoom interactions in order. -/
noncomputable def appliquer_zooms (s : VonKochState) (ops : List ZoomOp) : VonKochState :=
  ops.foldl appliquer_zoom s

/-- The three vertices of the base triangle computed by `dessiner_flocon`
(lines 163-180): `taille = TAILLE_FLOCON * zoom`, centre
`(W/2 + pan_x, H/2 + pan_y)`, `hauteur = taille * √3 / 2`, apex
`(centre_x, centre_y - hauteur/2)` and base corners
`(centre_x ∓ taille/2, centre_y + hauteur/2)`.  `W` and `H` are the canvas
dimensions (`1000 × 800` in `__init__`). -/
noncomputable def sommets_triangle (zoom pan_x pan_y W H : ℝ) :
    (ℝ × ℝ) × (ℝ × ℝ) × (ℝ × ℝ) :=
  let taille := TAILLE_FLOCON * zoom
  let centre_x := W / 2 + pan_x
  let centre_y := H / 2 + pan_y
  let hauteur := taille * Real.sqrt 3 / 2
  ((centre_x, centre_y - hauteur / 2),
   (centre_x - taille / 2, centre_y + hauteur / 2),
   (centre_x + taille / 2, centre_y + hauteur / 2))

/-- The outline point list built by `dessiner_flocon` (lines 182-194) and
handed to `create_polygon`: the Koch curves of the three triangle sides at
the current depth, concatenated with the last point of each side dropped
(`points_cote1[:-1] + points_cote2[:-1] + points_cote3[:-1]`). -/
noncomputable def dessiner_flocon_points (zoom pan_x pan_y : ℝ) (niveau : ℕ)
    (W H : ℝ) : List (ℝ × ℝ) :=
  let v := sommets_triangle zoom pan_x pan_y W H
  let x1 := v.1.1
  let y1 := v.1.2
  let x2 := v.2.1.1
  let y2 := v.2.1.2
  let x3 := v.2.2.1
  let y3 := v.2.2.2
  (calculer_points_koch x1 y1 x2 y2 niveau).dropLast ++
  (calculer_points_koch x2 y2 x3 y3 niveau).dropLast ++
  (calculer_points_koch x3 y3 x1 y1 niveau).dropLast

lemma head?_dropLast_of_two_le {α : Type} (l : List α) (h : 2 ≤ l.length) :
    l.dropLast.head? = l.head? := by
  match l with
  | [] => simp at h
  | [a] => simp at h
  | a :: b :: t => simp [List.dropLast]

lemma append_ne_nil_left {α : Type} {l1 : List α} (h : l1 ≠ []) (l2 : List α) :
    l1 ++ l2 ≠ [] := fun hc => h (List.append_eq_nil.mp hc).1

lemma koch_length (n : ℕ) :
    ∀ x1 y1 x2 y2 : ℝ, (calculer_points_koch x1 y1 x2 y2 n).length = 4 ^ n + 1 := by
  induction n with
  | zero => intro x1 y1 x2 y2; simp [calculer_points_koch]
  | succ n ih =>
    intro x1 y1 x2 y2
    simp only [calculer_points_koch, List.length_append, List.length_dropLast, ih]
    have h4 : (4 : ℕ) ^ (n + 1) = 4 * 4 ^ n := by ring
    omega

lemma koch_ne_nil (n : ℕ) (x1 y1 x2 y2 : ℝ) :
    calculer_points_koch x1 y1 x2 y2 n ≠ [] := by
  intro hc
  have h := koch_length n x1 y1 x2 y2
  rw [hc] at h
  simp at h

lemma koch_dropLast_ne_nil (n : ℕ) (x1 y1 x2 y2 : ℝ) :
    (calculer_points_koch x1 y1 x2 y2 n).dropLast ≠ [] := by
  intro hc
  have h : (calculer_points_koch x1 y1 x2 y2 n).dropLast.length = 0 := by
    rw [hc]; rfl
  rw [List.length_dropLast, koch_length] at h
  have h4 : 0 < 4 ^ n := pow_pos (by norm_num) n
  omega

lemma koch_head? (n : ℕ) :
    ∀ x1 y1 x2 y2 : ℝ, (calculer_points_koch x1 y1 x2 y2 n).head? = some (x1, y1) := by
  induction n with
  | zero => intro x1 y1 x2 y2; simp [calculer_points_koch]
  | succ n ih =>
    intro x1 y1 x2 y2
    simp only [calculer_points_koch]
    have hA := koch_dropLast_ne_nil n x1 y1 (x1 + (x2 - x1) / 3) (y1 + (y2 - y1) / 3)
    rw [List.head?_append_of_ne_nil _ (append_ne_nil_left (append_ne_nil_left hA _) _),
      List.head?_append_of_ne_nil _ (append_ne_nil_left hA _),
      List.head?_append_of_ne_nil _ hA,
      head?_dropLast_of_two_le _
        (by rw [koch_length]; nlinarith [pow_pos (show (0:ℕ) < 4 by norm_num) n]),
      ih]

lemma koch_getLast? (n : ℕ) :
    ∀ x1 y1 x2 y2 : ℝ, (calculer_points_koch x1 y1 x2 y2 n).getLast? = some (x2, y2) := by
  induction n with
  | zero => intro x1 y1 x2 y2; simp [calculer_points_koch]
  | succ n ih =>
    intro x1 y1 x2 y2
    simp only [calculer_points_koch]
    have h4 : calculer_points_koch (x1 + 2 * (x2 - x1) / 3) (y1 + 2 * (y2 - y1) / 3)
        x2 y2 n ≠ [] := koch_ne_nil n _ _ _ _
    rw [List.getLast?_append_of_ne_nil _ h4, ih]

lemma koch_degenere (n : ℕ) :
    ∀ x y : ℝ, calculer_points_koch x y x y n = List.replicate (4 ^ n + 1) (x, y) := by
  induction n with
  | zero =>
    intro x y
    norm_num [calculer_points_koch, List.replicate_succ]
  | succ n ih =>
    intro x y
    simp only [calculer_points_koch]
    simp only [sub_self, mul_zero, zero_div, add_zero, zero_add, zero_mul,
      Real.sqrt_zero]
    rw [ih]
    have hd : (List.replicate (4 ^ n + 1) ((x, y) : ℝ × ℝ)).dropLast
        = List.replicate (4 ^ n) (x, y) := by
      rw [List.replicate_succ', List.dropLast_concat]
    rw [hd, ← List.replicate_add, ← List.replicate_add, ← List.replicate_add]
    congr 1
    ring

lemma koch_fuel_neg :
    ∀ (fuel : ℕ) (x1 y1 x2 y2 : ℝ) (niveau : ℤ), niveau < 0 →
      calculer_points_koch_fuel fuel x1 y1 x2 y2 niveau = none := by
  intro fuel
  induction fuel with
  | zero => intro x1 y1 x2 y2 niveau _; rfl
  | succ fuel ih =>
    intro x1 y1 x2 y2 niveau h
    have hne : ¬niveau = 0 := by omega
    simp only [calculer_points_koch_fuel, if_neg hne]
    rw [ih _ _ _ _ _ (by omega)]
    rfl

/-- C1: for every depth `d ≥ 0` and every segment `(start, end)`,
`calculer_points_koch start end d` returns a list of exactly `4^d + 1`
points, whose first point is `start` and whose last point is `end`. -/
theorem C1_koch_longueur_extremites (x1 y1 x2 y2 : ℝ) (d : ℕ) :
    (calculer_points_koch x1 y1 x2 y2 d).length = 4 ^ d + 1 ∧
    (calculer_points_koch x1 y1 x2 y2 d).head? = some (x1, y1) ∧
    (calculer_points_koch x1 y1 x2 y2 d).getLast? = some (x2, y2) :=
  ⟨koch_length d x1 y1 x2 y2, koch_head? d x1 y1 x2 y2, koch_getLast? d x1 y1 x2 y2⟩

/-- C3 counterexample: on the zero-length segment `P = (0, 0)` at depth `1`,
`calculer_points_koch P P 1` is not the two-point list `[P, P]` (it has
`4^1 + 1 = 5` points). -/
theorem C3_contre_exemple :
    calculer_points_koch 0 0 0 0 1 ≠ [(0, 0), (0, 0)] := by
  intro hc
  have h := koch_length 1 0 0 0 0
  rw [hc] at h
  simp at h

/-- C3 amended: on a zero-length segment the recursion still runs to full
depth: `calculer_points_koch P P d` terminates and returns the list of
`4^d + 1` copies of `P` (so `[P, P]` exactly when `d = 0`), all spike
computations degenerating to `P` itself. -/
theorem C3_segment_degenere (x y : ℝ) (d : ℕ) :
    calculer_points_koch x y x y d = List.replicate (4 ^ d + 1) (x, y) :=
  koch_degenere d x y

/-- C4 counterexample: at depth `-1` on the segment `(0,0)-(1,0)` the code
does not produce any defined failure result: the guard `niveau == 0` never
holds, and the recursion exhausts every fuel bound (in CPython this
is unbounded recursion ending in `RecursionError`, not an explicit
invalid-argument error). -/
theorem C4_contre_exemple : koch_boucle_infinie 0 0 1 0 (-1) := fun fuel =>
  koch_fuel_neg fuel 0 0 1 0 (-1) (by norm_num)

/-- C4 amended: for every negative depth and every segment,
`calculer_points_koch` exhibits unbounded recursion: its only base case is
`niveau == 0`, which a negative `niveau` never reaches, so no finite call
depth produces a result; there is no explicit invalid-argument check in the
function (negative depths are instead prevented upstream by
`changer_niveau` clamping the level to `[0, 7]`). -/
theorem C4_profondeur_negative (x1 y1 x2 y2 : ℝ) (niveau : ℤ)
    (h : niveau < 0) : koch_boucle_infinie x1 y1 x2 y2 niveau := fun fuel =>
  koch_fuel_neg fuel x1 y1 x2 y2 niveau h

/-- C4 witness: the amended theorem applied at depth `-2` on the segment
`(0,0)-(3,4)`. -/
theorem C4_profondeur_negative_temoin :
    (-2 : ℤ) < 0 ∧ koch_boucle_infinie 0 0 3 4 (-2) :=
  ⟨by norm_num, C4_profondeur_negative 0 0 3 4 (-2) (by norm_num)⟩

/-- Point one third along the segment, as the spec words it:
`p1 = start + d/3`. -/
noncomputable def spec_p1 (x1 y1 x2 y2 : ℝ) : ℝ × ℝ :=
  (x1 + (x2 - x1) / 3, y1 + (y2 - y1) / 3)

/-- Point two thirds along the segment, as the spec words it:
`p3 = start + 2d/3`. -/
noncomputable def spec_p3 (x1 y1 x2 y2 : ℝ) : ℝ × ℝ :=
  (x1 + 2 * (x2 - x1) / 3, y1 + 2 * (y2 - y1) / 3)

/-- The spike apex, as the spec words it:
`p2 = p1 + (L/3) · (cos(θ + 60°), sin(θ + 60°))` with `L = |end - start|`
(the Euclidean length `√(dx² + dy²)`) and `θ = atan2 dy dx`. -/
noncomputable def spec_p2 (x1 y1 x2 y2 : ℝ) : ℝ × ℝ :=
  let L := Real.sqrt ((x2 - x1) ^ 2 + (y2 - y1) ^ 2)
  let θ := atan2 (y2 - y1) (x2 - x1)
  ((spec_p1 x1 y1 x2 y2).1 + L / 3 * Real.cos (θ + Real.pi / 3),
   (spec_p1 x1 y1 x2 y2).2 + L / 3 * Real.sin (θ + Real.pi / 3))

lemma atan2_zero_one : atan2 0 1 = 0 := by
  unfold atan2
  have h : (⟨1, 0⟩ : ℂ) = 1 := by
    apply Complex.ext <;> simp
  rw [h, Complex.arg_one]

lemma koch_unitaire :
    calculer_points_koch 0 0 1 0 1 =
      [(0, 0), (1 / 3, 0), (1 / 2, Real.sqrt 3 / 6), (2 / 3, 0), (1, 0)] := by
  simp only [calculer_points_koch]
  norm_num [atan2_zero_one, Real.cos_pi_div_three, Real.sin_pi_div_three]
  ring

/-- C5: for every non-degenerate segment and depth `d ≥ 1`, the recursive
step of `calculer_points_koch` recurses on the four sub-segments whose
endpoints are `p1 = start + d/3`, `p3 = start + 2d/3` and the apex
`p2 = p1 + (L/3)·(cos(θ+60°), sin(θ+60°))` with `L = |end - start|` and
`θ = atan2 dy dx`, concatenating the results with the trailing point of the
first three dropped; and the apex is not the segment midpoint: on the
segment `(0,0)-(1,0)` the third point of the depth-1 curve is
`spec_p2 0 0 1 0 = (1/2, √3/6)`, not the midpoint `(1/2, 0)`. -/
theorem C5_etape_recursive (x1 y1 x2 y2 : ℝ) (n : ℕ) :
    (calculer_points_koch x1 y1 x2 y2 (n + 1) =
      (calculer_points_koch x1 y1
        (spec_p1 x1 y1 x2 y2).1 (spec_p1 x1 y1 x2 y2).2 n).dropLast ++
      (calculer_points_koch (spec_p1 x1 y1 x2 y2).1 (spec_p1 x1 y1 x2 y2).2
        (spec_p2 x1 y1 x2 y2).1 (spec_p2 x1 y1 x2 y2).2 n).dropLast ++
      (calculer_points_koch (spec_p2 x1 y1 x2 y2).1 (spec_p2 x1 y1 x2 y2).2
        (spec_p3 x1 y1 x2 y2).1 (spec_p3 x1 y1 x2 y2).2 n).dropLast ++
      calculer_points_koch (spec_p3 x1 y1 x2 y2).1 (spec_p3 x1 y1 x2 y2).2
        x2 y2 n) ∧
    (calculer_points_koch 0 0 1 0 1)[2]? = some (spec_p2 0 0 1 0) ∧
    spec_p2 0 0 1 0 ≠ ((0 + 1) / 2, (0 + 0) / 2) := by
  have hp2 : spec_p2 0 0 1 0 = (1 / 2, Real.sqrt 3 / 6) := by
    simp only [spec_p2, spec_p1]
    norm_num [atan2_zero_one, Real.cos_pi_div_three, Real.sin_pi_div_three]
    ring
  refine ⟨?_, ?_, ?_⟩
  · simp only [calculer_points_koch, spec_p1, spec_p2, spec_p3]
    rw [show (x2 - x1) * (x2 - x1) + (y2 - y1) * (y2 - y1)
        = (x2 - x1) ^ 2 + (y2 - y1) ^ 2 by ring]
  · rw [koch_unitaire, hp2]
    rfl
  · rw [hp2]
    intro hc
    have h2 : Real.sqrt 3 / 6 = (0 + 0) / 2 := congrArg Prod.snd hc
    norm_num at h2

lemma sqrt_trois_bornes :
    (259.80 : ℝ) < 150 * Real.sqrt 3 ∧ 150 * Real.sqrt 3 < 259.82 := by
  have h0 : (0 : ℝ) ≤ Real.sqrt 3 := Real.sqrt_nonneg 3
  have h3 : Real.sqrt 3 * Real.sqrt 3 = 3 :=
    Real.mul_self_sqrt (by norm_num)
  constructor
  · nlinarith
  · nlinarith

/-- C8: for every zoom `z`, pan `(px, py)` and canvas `W × H`, the triangle
vertices computed in `dessiner_flocon` are, with `S = TAILLE_FLOCON = 600`,
centre `C = (W/2 + px, H/2 + py)` and height `h = (S·z)·√3/2`: apex
`(Cx, Cy - h/2)` and base corners `(Cx ∓ S·z/2, Cy + h/2)`; concretely for
`z = 1`, pan `(0,0)`, canvas `1000 × 800` this is apex `(500, 400 - 150√3)`,
left `(200, 400 + 150√3)`, right `(800, 400 + 150√3)`, where
`150√3 = 259.80...` (half the height `600·√3/2 ≈ 519.6`). -/
theorem C8_sommets_triangle (z px py W H : ℝ) :
    (sommets_triangle z px py W H =
      ((W / 2 + px, (H / 2 + py) - 600 * z * Real.sqrt 3 / 2 / 2),
       ((W / 2 + px) - 600 * z / 2, (H / 2 + py) + 600 * z * Real.sqrt 3 / 2 / 2),
       ((W / 2 + px) + 600 * z / 2, (H / 2 + py) + 600 * z * Real.sqrt 3 / 2 / 2))) ∧
    sommets_triangle 1 0 0 1000 800 =
      ((500, 400 - 150 * Real.sqrt 3), (200, 400 + 150 * Real.sqrt 3),
       (800, 400 + 150 * Real.sqrt 3)) ∧
    (259.80 : ℝ) < 150 * Real.sqrt 3 ∧ 150 * Real.sqrt 3 < 259.82 := by
  refine ⟨rfl, ?_, sqrt_trois_bornes⟩
  simp only [sommets_triangle, TAILLE_FLOCON, Prod.mk.injEq]
  norm_num
  ring

lemma flocon_longueur (z px py W H : ℝ) (d : ℕ) :
    (dessiner_flocon_points z px py d W H).length = 3 * 4 ^ d := by
  simp only [dessiner_flocon_points, List.length_append, List.length_dropLast,
    koch_length]
  simp only [Nat.add_sub_cancel]
  ring

lemma flocon_head? (z px py W H : ℝ) (d : ℕ) :
    (dessiner_flocon_points z px py d W H).head? =
      some (sommets_triangle z px py W H).1 := by
  simp only [dessiner_flocon_points]
  have hA := koch_dropLast_ne_nil d (sommets_triangle z px py W H).1.1
    (sommets_triangle z px py W H).1.2 (sommets_triangle z px py W H).2.1.1
    (sommets_triangle z px py W H).2.1.2
  rw [List.head?_append_of_ne_nil _ (append_ne_nil_left hA _),
    List.head?_append_of_ne_nil _ hA,
    head?_dropLast_of_two_le _
      (by rw [koch_length]; nlinarith [pow_pos (show (0:ℕ) < 4 by norm_num) d]),
    koch_head?]

/-- C2 counterexample: at depth 0 (zoom 1, pan `(0,0)`, canvas `1000 × 800`)
the outline built by `dessiner_flocon` has 3 points, not `3·4⁰ + 1 = 4`:
the trailing point of the third side's curve is dropped too, so the outline
does not end with a repeat of the first vertex. -/
theorem C2_contre_exemple :
    (dessiner_flocon_points 1 0 0 0 1000 800).length ≠ 3 * 4 ^ 0 + 1 := by
  rw [flocon_longueur]
  norm_num

/-- C2 amended: for every depth `d ≤ 7` (and in fact every `d`), the outline
built by `dessiner_flocon` is the concatenation of the three per-edge curves
in which EVERY curve's trailing point is dropped, the last one included
(`points_cote1[:-1] + points_cote2[:-1] + points_cote3[:-1]`), so the
outline has `3·4^d` points, starting at the apex and not repeating the
first vertex at the end. -/
theorem C2_contour_flocon (z px py W H : ℝ) (d : ℕ) (h : d ≤ 7) :
    (dessiner_flocon_points z px py d W H =
      (calculer_points_koch (sommets_triangle z px py W H).1.1
        (sommets_triangle z px py W H).1.2 (sommets_triangle z px py W H).2.1.1
        (sommets_triangle z px py W H).2.1.2 d).dropLast ++
      (calculer_points_koch (sommets_triangle z px py W H).2.1.1
        (sommets_triangle z px py W H).2.1.2 (sommets_triangle z px py W H).2.2.1
        (sommets_triangle z px py W H).2.2.2 d).dropLast ++
      (calculer_points_koch (sommets_triangle z px py W H).2.2.1
        (sommets_triangle z px py W H).2.2.2 (sommets_triangle z px py W H).1.1
        (sommets_triangle z px py W H).1.2 d).dropLast) ∧
    (dessiner_flocon_points z px py d W H).length = 3 * 4 ^ d ∧
    (dessiner_flocon_points z px py d W H).head? =
      some (sommets_triangle z px py W H).1 :=
  ⟨rfl, flocon_longueur z px py W H d, flocon_head? z px py W H d⟩

/-- C2 witness: the amended theorem at depth 0, zoom 1, pan `(0,0)`,
canvas `1000 × 800`. -/
theorem C2_contour_flocon_temoin :
    0 ≤ 7 ∧
    ((dessiner_flocon_points 1 0 0 0 1000 800 =
      (calculer_points_koch (sommets_triangle 1 0 0 1000 800).1.1
        (sommets_triangle 1 0 0 1000 800).1.2 (sommets_triangle 1 0 0 1000 800).2.1.1
        (sommets_triangle 1 0 0 1000 800).2.1.2 0).dropLast ++
      (calculer_points_koch (sommets_triangle 1 0 0 1000 800).2.1.1
        (sommets_triangle 1 0 0 1000 800).2.1.2 (sommets_triangle 1 0 0 1000 800).2.2.1
        (sommets_triangle 1 0 0 1000 800).2.2.2 0).dropLast ++
      (calculer_points_koch (sommets_triangle 1 0 0 1000 800).2.2.1
        (sommets_triangle 1 0 0 1000 800).2.2.2 (sommets_triangle 1 0 0 1000 800).1.1
        (sommets_triangle 1 0 0 1000 800).1.2 0).dropLast) ∧
    (dessiner_flocon_points 1 0 0 0 1000 800).length = 3 * 4 ^ 0 ∧
    (dessiner_flocon_points 1 0 0 0 1000 800).head? =
      some (sommets_triangle 1 0 0 1000 800).1) :=
  ⟨by norm_num, C2_contour_flocon 1 0 0 1000 800 0 (by norm_num)⟩

/-- C9: at depth 0 the outline built by `dessiner_flocon` is exactly the
three triangle vertices in the winding order apex, left base corner, right
base corner, with no repeated point (the three vertices are pairwise
distinct as soon as the zoom is positive, and in the application the zoom
always stays in `[0.1, 50]`). -/
theorem C9_profondeur_zero (z px py W H : ℝ) (h : 0 < z) :
    dessiner_flocon_points z px py 0 W H =
      [(sommets_triangle z px py W H).1, (sommets_triangle z px py W H).2.1,
       (sommets_triangle z px py W H).2.2] ∧
    (dessiner_flocon_points z px py 0 W H).Nodup := by
  refine ⟨rfl, ?_⟩
  have hv : sommets_triangle z px py W H =
      ((W / 2 + px, (H / 2 + py) - 600 * z * Real.sqrt 3 / 2 / 2),
       ((W / 2 + px) - 600 * z / 2, (H / 2 + py) + 600 * z * Real.sqrt 3 / 2 / 2),
       ((W / 2 + px) + 600 * z / 2, (H / 2 + py) + 600 * z * Real.sqrt 3 / 2 / 2)) := rfl
  have houtline : dessiner_flocon_points z px py 0 W H =
      [(sommets_triangle z px py W H).1, (sommets_triangle z px py W H).2.1,
       (sommets_triangle z px py W H).2.2] := rfl
  have h12 : ((W / 2 + px, (H / 2 + py) - 600 * z * Real.sqrt 3 / 2 / 2) : ℝ × ℝ) ≠
      ((W / 2 + px) - 600 * z / 2, (H / 2 + py) + 600 * z * Real.sqrt 3 / 2 / 2) := by
    intro hc
    have hx := congrArg Prod.fst hc
    simp only at hx
    nlinarith
  have h13 : ((W / 2 + px, (H / 2 + py) - 600 * z * Real.sqrt 3 / 2 / 2) : ℝ × ℝ) ≠
      ((W / 2 + px) + 600 * z / 2, (H / 2 + py) + 600 * z * Real.sqrt 3 / 2 / 2) := by
    intro hc
    have hx := congrArg Prod.fst hc
    simp only at hx
    nlinarith
  have h23 : (((W / 2 + px) - 600 * z / 2, (H / 2 + py) + 600 * z * Real.sqrt 3 / 2 / 2) : ℝ × ℝ) ≠
      ((W / 2 + px) + 600 * z / 2, (H / 2 + py) + 600 * z * Real.sqrt 3 / 2 / 2) := by
    intro hc
    have hx := congrArg Prod.fst hc
    simp only at hx
    nlinarith
  rw [houtline, hv]
  simp [List.nodup_cons, h12, h13, h23]

/-- C9 witness: the theorem at zoom 1, pan `(0,0)`, canvas `1000 × 800`. -/
theorem C9_profondeur_zero_temoin :
    (0 : ℝ) < 1 ∧
    (dessiner_flocon_points 1 0 0 0 1000 800 =
      [(sommets_triangle 1 0 0 1000 800).1, (sommets_triangle 1 0 0 1000 800).2.1,
       (sommets_triangle 1 0 0 1000 800).2.2] ∧
    (dessiner_flocon_points 1 0 0 0 1000 800).Nodup) :=
  ⟨by norm_num, C9_profondeur_zero 1 0 0 1000 800 (by norm_num)⟩

lemma zoom_pas_invariant (s : VonKochState) (op : ZoomOp)
    (h1 : 0.1 ≤ s.zoom) (h2 : s.zoom ≤ 50) :
    0.1 ≤ (appliquer_zoom s op).zoom ∧ (appliquer_zoom s op).zoom ≤ 50 := by
  cases op with
  | windows delta =>
    exact ⟨le_max_left _ _,
      max_le (by norm_num) (le_trans (min_le_left _ _) (by norm_num))⟩
  | macos delta =>
    exact ⟨le_max_left _ _,
      max_le (by norm_num) (le_trans (min_le_left _ _) (by norm_num))⟩
  | inLinux =>
    exact ⟨le_min (by norm_num) (by nlinarith),
      le_trans (min_le_left _ _) (by norm_num)⟩
  | outLinux =>
    refine ⟨le_max_left _ _, max_le (by norm_num) ?_⟩
    rw [div_le_iff₀ (by norm_num : (0 : ℝ) < 1.1)]
    nlinarith
  | clavier b =>
    exact ⟨le_max_left _ _,
      max_le (by norm_num) (le_trans (min_le_left _ _) (by norm_num))⟩

lemma zoom_suite_invariant (ops : List ZoomOp) :
    ∀ s : VonKochState, 0.1 ≤ s.zoom → s.zoom ≤ 50 →
      0.1 ≤ (appliquer_zooms s ops).zoom ∧ (appliquer_zooms s ops).zoom ≤ 50 := by
  induction ops with
  | nil => intro s h1 h2; exact ⟨h1, h2⟩
  | cons op ops ih =>
    intro s h1 h2
    have h := zoom_pas_invariant s op h1 h2
    exact ih _ h.1 h.2

/-- C6: starting from any zoom in `[0.1, 50]`, every sequence of zoom
interactions (Windows/macOS wheel with any delta, Linux in/out, keyboard
in/out) leaves the zoom in `[0.1, 50]`; and from the initial state
(zoom `1.0`), one Windows wheel event whose factor `1 + delta/1200` is
`1000` (delta `1198800`) yields zoom `50`, and one whose factor is `0.0001`
(delta `-1199.88`) yields zoom `0.1`. -/
theorem C6_zoom_borne (s : VonKochState) (ops : List ZoomOp)
    (h1 : 0.1 ≤ s.zoom) (h2 : s.zoom ≤ 50) :
    (0.1 ≤ (appliquer_zooms s ops).zoom ∧ (appliquer_zooms s ops).zoom ≤ 50) ∧
    (zoomer_windows etat_initial 1198800).zoom = 50 ∧
    (zoomer_windows etat_initial (-1199.88)).zoom = 0.1 := by
  refine ⟨zoom_suite_invariant ops s h1 h2, ?_, ?_⟩
  · show max 0.1 (min 50.0 (etat_initial.zoom * (1.0 + 1198800 / 1200.0))) = 50
    rw [show etat_initial.zoom * (1.0 + 1198800 / 1200.0) = 1000 by
      norm_num [etat_initial]]
    rw [min_eq_left (by norm_num : (50.0 : ℝ) ≤ 1000),
      max_eq_right (by norm_num : (0.1 : ℝ) ≤ 50.0)]
    norm_num
  · show max 0.1 (min 50.0 (etat_initial.zoom * (1.0 + -1199.88 / 1200.0))) = 0.1
    rw [show etat_initial.zoom * (1.0 + -1199.88 / 1200.0) = 0.0001 by
      norm_num [etat_initial]]
    rw [min_eq_right (by norm_num : (0.0001 : ℝ) ≤ 50.0),
      max_eq_left (by norm_num : (0.0001 : ℝ) ≤ 0.1)]

/-- C6 witness: the theorem applied to the initial state and the sequence
Linux zoom-in, keyboard zoom-out. -/
theorem C6_zoom_borne_temoin :
    ((0.1 : ℝ) ≤ etat_initial.zoom ∧ etat_initial.zoom ≤ 50) ∧
    ((0.1 ≤ (appliquer_zooms etat_initial [ZoomOp.inLinux, ZoomOp.clavier false]).zoom ∧
      (appliquer_zooms etat_initial [ZoomOp.inLinux, ZoomOp.clavier false]).zoom ≤ 50) ∧
     (zoomer_windows etat_initial 1198800).zoom = 50 ∧
     (zoomer_windows etat_initial (-1199.88)).zoom = 0.1) :=
  ⟨⟨by norm_num [etat_initial], by norm_num [etat_initial]⟩,
   C6_zoom_borne etat_initial [ZoomOp.inLinux, ZoomOp.clavier false]
     (by norm_num [etat_initial]) (by norm_num [etat_initial])⟩

/-- C7: for every current level and every integer delta, `changer_niveau`
sets the level to `clamp(niveau + delta, 0, 7) = max 0 (min 7 (niveau +
delta))`, hence always lands in `[0, 7]`; from level 7 a `+1` leaves 7 and
from level 0 a `-1` leaves 0. -/
theorem C7_changer_niveau (s : VonKochState) (delta : ℤ) :
    (changer_niveau s delta).niveau = max 0 (min 7 (s.niveau + delta)) ∧
    (0 ≤ (changer_niveau s delta).niveau ∧ (changer_niveau s delta).niveau ≤ 7) ∧
    (changer_niveau { etat_initial with niveau := 7 } 1).niveau = 7 ∧
    (changer_niveau { etat_initial with niveau := 0 } (-1)).niveau = 0 := by
  refine ⟨rfl, ⟨le_max_left _ _, max_le (by norm_num) (min_le_left _ _)⟩, ?_, ?_⟩ <;>
    simp [changer_niveau]

/-- C10: each state-mutating handler touches only its own fields:
`deplacer` leaves `zoom`, `niveau` and `dragging` unchanged (it only moves
`pan_x`, `pan_y` and the drag bookkeeping `last_x`, `last_y`); every zoom
handler leaves `pan_x`, `pan_y`, `niveau`, `dragging`, `last_x`, `last_y`
unchanged; `changer_niveau` leaves `zoom`, `pan_x`, `pan_y`, `dragging`,
`last_x`, `last_y` unchanged. -/
theorem C10_effets_de_cadre (s : VonKochState) (ex ey delta : ℝ) (d : ℤ)
    (b : Bool) :
    ((deplacer s ex ey).zoom = s.zoom ∧ (deplacer s ex ey).niveau = s.niveau ∧
     (deplacer s ex ey).dragging = s.dragging) ∧
    ((zoomer_windows s delta).pan_x = s.pan_x ∧
     (zoomer_windows s delta).pan_y = s.pan_y ∧
     (zoomer_windows s delta).niveau = s.niveau ∧
     (zoomer_windows s delta).dragging = s.dragging ∧
     (zoomer_windows s delta).last_x = s.last_x ∧
     (zoomer_windows s delta).last_y = s.last_y) ∧
    ((zoomer_macos s delta).pan_x = s.pan_x ∧
     (zoomer_macos s delta).pan_y = s.pan_y ∧
     (zoomer_macos s delta).niveau = s.niveau ∧
     (zoomer_macos s delta).dragging = s.dragging ∧
     (zoomer_macos s delta).last_x = s.last_x ∧
     (zoomer_macos s delta).last_y = s.last_y) ∧
    ((zoomer_in_linux s).pan_x = s.pan_x ∧ (zoomer_in_linux s).pan_y = s.pan_y ∧
     (zoomer_in_linux s).niveau = s.niveau ∧
     (zoomer_in_linux s).dragging = s.dragging ∧
     (zoomer_in_linux s).last_x = s.last_x ∧
     (zoomer_in_linux s).last_y = s.last_y) ∧
    ((zoomer_out_linux s).pan_x = s.pan_x ∧ (zoomer_out_linux s).pan_y = s.pan_y ∧
     (zoomer_out_linux s).niveau = s.niveau ∧
     (zoomer_out_linux s).dragging = s.dragging ∧
     (zoomer_out_linux s).last_x = s.last_x ∧
     (zoomer_out_linux s).last_y = s.last_y) ∧
    ((zoomer_clavier s b).pan_x = s.pan_x ∧ (zoomer_clavier s b).pan_y = s.pan_y ∧
     (zoomer_clavier s b).niveau = s.niveau ∧
     (zoomer_clavier s b).dragging = s.dragging ∧
     (zoomer_clavier s b).last_x = s.last_x ∧
     (zoomer_clavier s b).last_y = s.last_y) ∧
    ((changer_niveau s d).zoom = s.zoom ∧ (changer_niveau s d).pan_x = s.pan_x ∧
     (changer_niveau s d).pan_y = s.pan_y ∧
     (changer_niveau s d).dragging = s.dragging ∧
     (changer_niveau s d).last_x = s.last_x ∧
     (changer_niveau s d).last_y = s.last_y) := by
  refine ⟨?_, ?_, ?_, ?_, ?_, ?_, ?_⟩
  · unfold deplacer
    split <;> simp
  all_goals exact ⟨rfl, rfl, rfl, rfl, rfl, rfl⟩

end VonKoch
